import Mathlib

/-!
Shallow embedding of the `MainCanvas` component of the fsd_builder
repository (`src/components/main_canvas.rs`): its data model, the UI
message handler `update`, and the pure rendering helpers used by `view`
(point totals, banner class, per-element labels, image style classes,
tooltip content).  Theorems below settle the behavioural claims about
this component.
-/

namespace FsdBuilder

/-- Modelled from the spec: the roster element types live in
`src/models/roster.rs`, which is not part of the sources given; the spec's
data model (§3) lists `Character { name, points }`.  Field names follow the
accesses made by `main_canvas.rs` (`character.name`, `character.points`). -/
structure Character where
  name : String
  points : Nat
deriving Repr, DecidableEq

/-- Modelled from the spec: `Unit { name, points, image }` (§3), fields as
accessed by `main_canvas.rs` (`unit.name`, `unit.points`, `unit.image`). -/
structure UnitElem where
  name : String
  points : Nat
  image : String
deriving Repr, DecidableEq

/-- Modelled from the spec: `Support { name, points }` (§3), fields as
accessed by `main_canvas.rs` (`support.name`, `support.points`). -/
structure Support where
  name : String
  points : Nat
deriving Repr, DecidableEq

/-- Modelled from the spec: the closed variant set of roster elements (§3).
The constructor names and payload shapes follow the patterns matched in
`main_canvas.rs`: `ElemCharacter(character)`, `ElemUnit(unit)`,
`ElemSupport(support)`, `ElemOther((name, value, image))`. -/
inductive RosterElement where
  | ElemCharacter (character : Character)
  | ElemUnit (unit : UnitElem)
  | ElemSupport (support : Support)
  | ElemOther (other : String × Nat × String)
deriving Repr, DecidableEq

/-- Modelled from the spec: the roster is an ordered sequence of elements
(§3); `main_canvas.rs` accesses it as `roster.elements`. -/
structure Roster where
  elements : List RosterElement
deriving Repr, DecidableEq

/-- Modelled from the spec: `SharedMessage` is defined in
`src/shared_messages.rs`, outside the given sources.  The five variants
below are exactly the ones `MainCanvas::update` matches on;
`UnsupportedVariant` stands for any further variant of the closed message
set, which reaches the wildcard arm of the match.  Coordinates are the
`i32` client coordinates of the mouse event, embedded as `Int`. -/
inductive SharedMessage where
  | NotifyRosterUpdated
  | DeleteElement (index : Nat)
  | ShowTooltip (index : Nat)
  | MoveTooltip (x y : Int)
  | HideTooltip
  | UnsupportedVariant
deriving Repr, DecidableEq

/-- One escaped character of Rust's `Debug` formatting of a string
(`format!` with the debug specifier), as used on element names. -/
def rustEscapeChar (c : Char) : String :=
  if c = '"' then "\\\""
  else if c = '\\' then "\\\\"
  else if c = '\n' then "\\n"
  else if c = '\r' then "\\r"
  else if c = '\t' then "\\t"
  else if c.toNat < 32 then
    "\\u\x7b" ++ String.mk (Nat.toDigits 16 c.toNat) ++ "\x7d"
  else String.singleton c

/-- Rust's `Debug` formatting of a `String`: the text wrapped in double
quotes, with special characters escaped. -/
def rustDebugFmt (s : String) : String :=
  "\"" ++ String.join (s.toList.map rustEscapeChar) ++ "\""

/-- Source `MainCanvas::get_element_name`: the variant-specific display
name.  Character/Unit/Support names are formatted with the debug specifier
(hence quoted); `ElemOther` displays its raw label. -/
def get_element_name : RosterElement → String
  | .ElemCharacter character => "Character: " ++ rustDebugFmt character.name
  | .ElemUnit unit => "Unit: " ++ rustDebugFmt unit.name
  | .ElemSupport support => "Support: " ++ rustDebugFmt support.name
  | .ElemOther (name, _, _) => name

/-- Source `MainCanvas::get_element_points`: the element's declared point
value (`u32` in the source; values embedded as `Nat`). -/
def get_element_points : RosterElement → Nat
  | .ElemCharacter character => character.points
  | .ElemUnit unit => unit.points
  | .ElemSupport support => support.points
  | .ElemOther (_, value, _) => value

/-- Source `MainCanvas::get_image`: the resolved image filename. -/
def get_image : RosterElement → String
  | .ElemCharacter _ => "character.png"
  | .ElemUnit unit => unit.image
  | .ElemSupport _ => "support.png"
  | .ElemOther (_, _, image) => image

/-- Source `MainCanvas::get_tooltip_content`: the cached tooltip fragment,
embedded as its list of text lines (a text node and a `div`). -/
def get_tooltip_content (elem : RosterElement) : List String :=
  ["Details about: " ++ get_element_name elem, "Double click to delete"]

/-- The `MainCanvas` component state: the props it holds (shared roster
handle and theme flag) and its transient tooltip state. -/
structure MainCanvas where
  roster : Roster
  is_dark_mode : Bool
  tooltip_visible : Bool
  tooltip_content : Option (List String)
  tooltip_x : Int
  tooltip_y : Int
deriving Repr, DecidableEq

/-- Source `MainCanvas::create`: initial state — tooltip hidden, no cached
content, position (0, 0). -/
def create (roster : Roster) (is_dark_mode : Bool) : MainCanvas :=
  { roster := roster
    is_dark_mode := is_dark_mode
    tooltip_visible := false
    tooltip_content := none
    tooltip_x := 0
    tooltip_y := 0 }

/-- Outcome of one `MainCanvas::update` call: the new component state,
whether the `on_roster_updated` callback was emitted, and the returned
re-render flag. -/
structure UpdateResult where
  state : MainCanvas
  emitted_roster_updated : Bool
  rerender : Bool
deriving Repr, DecidableEq

/-- Source `MainCanvas::update`: the message handler.  `none` models the
wildcard arm's abort (the source aborts on any unrecognized variant). -/
def update (s : MainCanvas) (msg : SharedMessage) : Option UpdateResult :=
  match msg with
  | .NotifyRosterUpdated => some ⟨s, false, true⟩
  | .DeleteElement index =>
      if index < s.roster.elements.length then
        some ⟨{ s with roster := ⟨s.roster.elements.eraseIdx index⟩
                       tooltip_visible := false }, true, true⟩
      else
        some ⟨{ s with tooltip_visible := false }, false, true⟩
  | .ShowTooltip index =>
      match s.roster.elements[index]? with
      | some elem =>
          some ⟨{ s with tooltip_content := some (get_tooltip_content elem)
                         tooltip_visible := true }, false, true⟩
      | none => some ⟨s, false, true⟩
  | .MoveTooltip x y => some ⟨{ s with tooltip_x := x, tooltip_y := y }, false, true⟩
  | .HideTooltip => some ⟨{ s with tooltip_visible := false }, false, true⟩
  | .UnsupportedVariant => none

/-- Source `MainCanvas::view`, total-points banner: the `u32` sum of every
element's point value.  `u32` addition wraps modulo 2^32 (release-build
semantics; a debug build would abort at the overflowing addition), hence
the explicit reduction at each step. -/
def total_points (roster : Roster) : Nat :=
  (roster.elements.map get_element_points).foldl (fun acc p => (acc + p) % 4294967296) 0

/-- Source `MainCanvas::view`: the CSS class of the total-points banner. -/
def total_points_class (roster : Roster) : String :=
  if total_points roster > 60 then "total-points over-limit" else "total-points"

/-- Source `MainCanvas::view`: the text of the total-points banner. -/
def total_points_text (roster : Roster) : String :=
  "Total Points: " ++ toString (total_points roster)

/-- Source `MainCanvas::view`: the CSS class chosen for an element's image. -/
def image_class (is_dark_mode : Bool) (elem : RosterElement) : String :=
  let image_path := get_image elem
  if is_dark_mode && (image_path == "character.png" || image_path == "support.png") then
    "inverted-roster-image"
  else
    "roster-image"

/-- Source `MainCanvas::view`: the per-element points label. -/
def points_label (elem : RosterElement) : String :=
  if get_element_points elem > 1 then
    toString (get_element_points elem) ++ " Points"
  else
    "1 Point"

/-- Processing a sequence of messages from a state; aborts propagate. -/
def run (s : MainCanvas) (msgs : List SharedMessage) : Option MainCanvas :=
  match msgs with
  | [] => some s
  | m :: rest =>
      match update s m with
      | some r => run r.state rest
      | none => none

/-- The tooltip invariant: whenever the tooltip is visible, a cached
content fragment is present. -/
def tooltip_inv (s : MainCanvas) : Prop :=
  s.tooltip_visible = true → s.tooltip_content.isSome = true

/-- C1 counterexample: a roster element declaring 0 points is rendered
with the label "1 Point", not "0 Points" as the claim states. -/
theorem c1_counterexample :
    points_label (RosterElement.ElemOther ("Objective", 0, "obj.png")) = "1 Point" ∧
    points_label (RosterElement.ElemOther ("Objective", 0, "obj.png")) ≠ "0 Points" := by
  decide

/-- C1 (amended): the rendered points label is "<n> Points" when the
element's points value n exceeds 1, and "1 Point" whenever n ≤ 1 — so a
value of 2 renders "2 Points", while both 1 and 0 render "1 Point". -/
theorem c1_points_label (elem : RosterElement) :
    (1 < get_element_points elem →
        points_label elem = toString (get_element_points elem) ++ " Points") ∧
    (get_element_points elem ≤ 1 → points_label elem = "1 Point") := by
  constructor
  · intro h
    simp [points_label, h]
  · intro h
    simp [points_label, Nat.not_lt.mpr h]

/-- C1 witness: the amended label rule evaluated at points values 2 and 1. -/
theorem c1_points_label_witness :
    points_label (RosterElement.ElemOther ("Knights", 2, "k.png")) = "2 Points" ∧
    points_label (RosterElement.ElemCharacter ⟨"Hero", 1⟩) = "1 Point" := by
  constructor
  · exact ((c1_points_label (RosterElement.ElemOther ("Knights", 2, "k.png"))).1
      (by decide)).trans (by decide)
  · exact (c1_points_label (RosterElement.ElemCharacter ⟨"Hero", 1⟩)).2 (by decide)

/-- C2 counterexample: a Unit element whose stored image reference equals
the built-in filename "character.png" IS inverted under the dark theme,
contradicting the claim that Unit images are never inverted. -/
theorem c2_counterexample :
    image_class true (RosterElement.ElemUnit ⟨"Raiders", 5, "character.png"⟩) =
      "inverted-roster-image" ∧
    image_class true (RosterElement.ElemUnit ⟨"Raiders", 5, "character.png"⟩) ≠
      "roster-image" := by
  decide

/-- C2 (amended): the image style class is inverted iff the theme flag is
true AND the element's resolved image path equals "character.png" or
"support.png"; Character and Support always resolve to those paths, and a
Unit or Other element is inverted under dark theme exactly when its stored
image reference equals one of those two built-in filenames.  Otherwise the
class is the normal one. -/
theorem c2_image_class (is_dark_mode : Bool) (elem : RosterElement) :
    (image_class is_dark_mode elem = "inverted-roster-image" ↔
      is_dark_mode = true ∧
        (get_image elem = "character.png" ∨ get_image elem = "support.png")) ∧
    (image_class is_dark_mode elem = "inverted-roster-image" ∨
      image_class is_dark_mode elem = "roster-image") := by
  simp only [image_class]
  split
  next hcond =>
    simp only [Bool.and_eq_true, Bool.or_eq_true, beq_iff_eq] at hcond
    exact ⟨⟨fun _ => hcond, fun _ => rfl⟩, Or.inl rfl⟩
  next hcond =>
    simp only [Bool.and_eq_true, Bool.or_eq_true, beq_iff_eq] at hcond
    exact ⟨⟨fun hx => absurd hx (by decide), fun hh => absurd hh hcond⟩, Or.inr rfl⟩

/-- C3: for an index within bounds, DeleteElement removes exactly the
element at that index from the shared roster — the new element list is the
prefix before the index followed by the suffix after it, so the relative
order of all other elements is preserved and the length drops by one —
emits the external roster-changed notification, and forces the tooltip to
Hidden while leaving the stored position (and cached content) unchanged. -/
theorem c3_delete_in_bounds (s : MainCanvas) (i : Nat)
    (h : i < s.roster.elements.length) :
    update s (SharedMessage.DeleteElement i) =
      some ⟨{ s with roster := ⟨s.roster.elements.take i ++ s.roster.elements.drop (i + 1)⟩
                     tooltip_visible := false }, true, true⟩ ∧
    (s.roster.elements.take i ++ s.roster.elements.drop (i + 1)).length + 1 =
      s.roster.elements.length := by
  constructor
  · simp [update, h, List.eraseIdx_eq_take_drop_succ]
  · rw [← List.eraseIdx_eq_take_drop_succ]
    exact List.length_eraseIdx_add_one h

/-- C3 witness: deleting index 1 of a 3-element roster while the tooltip
is shown for a different element (index 0). -/
theorem c3_witness :
    update { roster := ⟨[RosterElement.ElemCharacter ⟨"A", 10⟩,
                         RosterElement.ElemUnit ⟨"U", 20, "u.png"⟩,
                         RosterElement.ElemSupport ⟨"S", 30⟩]⟩
             is_dark_mode := false
             tooltip_visible := true
             tooltip_content := some ["Details about: Character: \"A\"",
                                      "Double click to delete"]
             tooltip_x := 5, tooltip_y := 6 } (SharedMessage.DeleteElement 1) =
      some ⟨{ roster := ⟨[RosterElement.ElemCharacter ⟨"A", 10⟩,
                          RosterElement.ElemSupport ⟨"S", 30⟩]⟩
              is_dark_mode := false
              tooltip_visible := false
              tooltip_content := some ["Details about: Character: \"A\"",
                                       "Double click to delete"]
              tooltip_x := 5, tooltip_y := 6 }, true, true⟩ :=
  ((c3_delete_in_bounds _ 1 (by decide)).1).trans (by decide)

/-- Folding wrapping addition from zero computes the plain sum reduced
modulo the wrap modulus. -/
theorem foldl_wrap_add (m : Nat) (xs : List Nat) :
    ∀ acc : Nat, xs.foldl (fun a p => (a + p) % m) (acc % m) = (acc + xs.sum) % m := by
  induction xs with
  | nil =>
      intro acc
      simp
  | cons x xs ih =>
      intro acc
      simp only [List.foldl_cons, List.sum_cons]
      rw [Nat.mod_add_mod, ih (acc + x), Nat.add_assoc]

/-- The banner total is the mathematical point sum reduced modulo 2^32. -/
theorem total_points_eq_sum_mod (roster : Roster) :
    total_points roster = (roster.elements.map get_element_points).sum % 4294967296 := by
  have h := foldl_wrap_add 4294967296 (roster.elements.map get_element_points) 0
  simpa [total_points] using h

/-- C4 counterexample: a roster of two elements of 2^31 points each (both
representable u32 values) wraps the u32 sum to 0, so the banner shows
"Total Points: 0" with the normal class, even though the sum of the
declared point values is 2^32 — which is neither 0 nor below the 60
over-limit threshold, refuting the claim as stated. -/
theorem c4_counterexample :
    total_points_text ⟨[RosterElement.ElemCharacter ⟨"A", 2147483648⟩,
                        RosterElement.ElemSupport ⟨"B", 2147483648⟩]⟩ = "Total Points: 0" ∧
    total_points_class ⟨[RosterElement.ElemCharacter ⟨"A", 2147483648⟩,
                         RosterElement.ElemSupport ⟨"B", 2147483648⟩]⟩ = "total-points" ∧
    ([RosterElement.ElemCharacter ⟨"A", 2147483648⟩,
      RosterElement.ElemSupport ⟨"B", 2147483648⟩].map get_element_points).sum =
      4294967296 ∧
    (4294967296 : Nat) ≠ 0 ∧ 60 < 4294967296 := by
  decide

/-- C4 (amended): the banner total is the u32 (wrapping) sum of every
element's declared point value, i.e. the mathematical sum reduced modulo
2^32 — hence equal to the plain sum whenever that sum fits in a u32, and 0
for the empty roster; the banner text displays that total, and the banner
carries the over-limit class iff that total strictly exceeds 60 — a total
of exactly 60 is classified normal and 61 over-limit. -/
theorem c4_total_and_banner (roster : Roster) :
    total_points roster = (roster.elements.map get_element_points).sum % 4294967296 ∧
    ((roster.elements.map get_element_points).sum < 4294967296 →
      total_points roster = (roster.elements.map get_element_points).sum) ∧
    total_points ⟨[]⟩ = 0 ∧
    total_points_text roster = "Total Points: " ++ toString (total_points roster) ∧
    (total_points_class roster = "total-points over-limit" ↔ 60 < total_points roster) ∧
    (total_points roster = 60 → total_points_class roster = "total-points") ∧
    (total_points roster = 61 → total_points_class roster = "total-points over-limit") := by
  refine ⟨total_points_eq_sum_mod roster, ?_, rfl, rfl, ?_, ?_, ?_⟩
  · intro h
    rw [total_points_eq_sum_mod roster, Nat.mod_eq_of_lt h]
  · unfold total_points_class
    split
    next h => exact ⟨fun _ => h, fun _ => rfl⟩
    next h => exact ⟨fun hx => absurd hx (by decide), fun hh => absurd hh h⟩
  · intro h
    simp [total_points_class, h]
  · intro h
    simp [total_points_class, h]

/-- C4 witness: a non-overflowing roster's banner total equals the plain
sum (60 here, classified normal), and a total of 61 gets the over-limit
class. -/
theorem c4_witness :
    total_points ⟨[RosterElement.ElemCharacter ⟨"A", 30⟩,
                   RosterElement.ElemSupport ⟨"B", 30⟩]⟩ = 60 ∧
    total_points_class ⟨[RosterElement.ElemCharacter ⟨"A", 30⟩,
                         RosterElement.ElemSupport ⟨"B", 30⟩]⟩ = "total-points" ∧
    total_points_class ⟨[RosterElement.ElemCharacter ⟨"A", 30⟩,
                         RosterElement.ElemSupport ⟨"B", 31⟩]⟩ = "total-points over-limit" :=
  ⟨((c4_total_and_banner ⟨[RosterElement.ElemCharacter ⟨"A", 30⟩,
        RosterElement.ElemSupport ⟨"B", 30⟩]⟩).2.1 (by decide)).trans (by decide),
   (c4_total_and_banner ⟨[RosterElement.ElemCharacter ⟨"A", 30⟩,
        RosterElement.ElemSupport ⟨"B", 30⟩]⟩).2.2.2.2.2.1 (by decide),
   (c4_total_and_banner ⟨[RosterElement.ElemCharacter ⟨"A", 30⟩,
        RosterElement.ElemSupport ⟨"B", 31⟩]⟩).2.2.2.2.2.2 (by decide)⟩

/-- C5: for an index within bounds, ShowTooltip sets the tooltip to shown
with cached content "Details about: " followed by the element's display
name plus the static hint "Double click to delete", leaving the stored
position unchanged; the display name is "Character: <name>",
"Unit: <name>", "Support: <name>" (names debug-quoted) or the raw label
for Other; and MoveTooltip never changes the cached content — it is
computed only at ShowTooltip time. -/
theorem c5_show_tooltip (s : MainCanvas) (i : Nat) (elem : RosterElement)
    (h : s.roster.elements[i]? = some elem) :
    update s (SharedMessage.ShowTooltip i) =
      some ⟨{ s with tooltip_visible := true
                     tooltip_content := some ["Details about: " ++ get_element_name elem,
                                              "Double click to delete"] }, false, true⟩ ∧
    (∀ character : Character,
        get_element_name (RosterElement.ElemCharacter character) =
          "Character: " ++ rustDebugFmt character.name) ∧
    (∀ unit : UnitElem,
        get_element_name (RosterElement.ElemUnit unit) = "Unit: " ++ rustDebugFmt unit.name) ∧
    (∀ support : Support,
        get_element_name (RosterElement.ElemSupport support) =
          "Support: " ++ rustDebugFmt support.name) ∧
    (∀ other : String × Nat × String,
        get_element_name (RosterElement.ElemOther other) = other.1) ∧
    (∀ (s' : MainCanvas) (x y : Int),
        (update s' (SharedMessage.MoveTooltip x y)).map (fun r => r.state.tooltip_content) =
          some s'.tooltip_content) := by
  refine ⟨?_, fun _ => rfl, fun _ => rfl, fun _ => rfl, ?_, fun _ _ _ => rfl⟩
  · simp [update, h, get_tooltip_content]
  · rintro ⟨n, v, im⟩
    rfl

/-- C5 witness: hovering index 0 of a one-element roster from the initial
state caches the expected content and keeps position (0, 0). -/
theorem c5_witness :
    update (create ⟨[RosterElement.ElemSupport ⟨"B", 40⟩]⟩ false)
        (SharedMessage.ShowTooltip 0) =
      some ⟨{ roster := ⟨[RosterElement.ElemSupport ⟨"B", 40⟩]⟩
              is_dark_mode := false
              tooltip_visible := true
              tooltip_content := some ["Details about: Support: \"B\"",
                                       "Double click to delete"]
              tooltip_x := 0, tooltip_y := 0 }, false, true⟩ :=
  ((c5_show_tooltip (create ⟨[RosterElement.ElemSupport ⟨"B", 40⟩]⟩ false) 0
      (RosterElement.ElemSupport ⟨"B", 40⟩) (by decide)).1).trans (by decide)

/-- C6: for an index out of bounds, DeleteElement leaves the roster
unchanged and does not emit the roster-changed notification, yet still
forces the tooltip to Hidden. -/
theorem c6_delete_out_of_bounds (s : MainCanvas) (i : Nat)
    (h : s.roster.elements.length ≤ i) :
    update s (SharedMessage.DeleteElement i) =
      some ⟨{ s with tooltip_visible := false }, false, true⟩ := by
  simp [update, Nat.not_lt.mpr h]

/-- C6 witness: deleting index 5 of a one-element roster keeps the roster,
emits nothing, and hides the shown tooltip. -/
theorem c6_witness :
    update { roster := ⟨[RosterElement.ElemSupport ⟨"S", 30⟩]⟩
             is_dark_mode := true
             tooltip_visible := true
             tooltip_content := some ["Details about: Support: \"S\"",
                                      "Double click to delete"]
             tooltip_x := 1, tooltip_y := 2 } (SharedMessage.DeleteElement 5) =
      some ⟨{ roster := ⟨[RosterElement.ElemSupport ⟨"S", 30⟩]⟩
              is_dark_mode := true
              tooltip_visible := false
              tooltip_content := some ["Details about: Support: \"S\"",
                                       "Double click to delete"]
              tooltip_x := 1, tooltip_y := 2 }, false, true⟩ :=
  (c6_delete_out_of_bounds _ 5 (by decide)).trans (by decide)

/-- C7: for an index at or beyond the roster length (a stale hover),
ShowTooltip returns the state completely unchanged — visibility, content
and position all keep their prior values — and does not abort. -/
theorem c7_show_tooltip_stale (s : MainCanvas) (i : Nat)
    (h : s.roster.elements.length ≤ i) :
    update s (SharedMessage.ShowTooltip i) = some ⟨s, false, true⟩ := by
  simp [update, List.getElem?_eq_none h]

/-- C7 witness: a stale ShowTooltip at index 3 of a one-element roster
leaves a shown tooltip exactly as it was. -/
theorem c7_witness :
    update { roster := ⟨[RosterElement.ElemCharacter ⟨"A", 10⟩]⟩
             is_dark_mode := false
             tooltip_visible := true
             tooltip_content := some ["Details about: Character: \"A\"",
                                      "Double click to delete"]
             tooltip_x := 7, tooltip_y := 8 } (SharedMessage.ShowTooltip 3) =
      some ⟨{ roster := ⟨[RosterElement.ElemCharacter ⟨"A", 10⟩]⟩
              is_dark_mode := false
              tooltip_visible := true
              tooltip_content := some ["Details about: Character: \"A\"",
                                       "Double click to delete"]
              tooltip_x := 7, tooltip_y := 8 }, false, true⟩ :=
  (c7_show_tooltip_stale _ 3 (by decide)).trans (by decide)

/-- C8: MoveTooltip updates only the stored position, leaving visibility
and content (and the roster) unchanged, and a second MoveTooltip with the
same coordinates is idempotent — the state after two is identical to the
state after one. -/
theorem c8_move_tooltip (s : MainCanvas) (x y : Int) :
    update s (SharedMessage.MoveTooltip x y) =
      some ⟨{ s with tooltip_x := x, tooltip_y := y }, false, true⟩ ∧
    run s [SharedMessage.MoveTooltip x y, SharedMessage.MoveTooltip x y] =
      run s [SharedMessage.MoveTooltip x y] :=
  ⟨rfl, rfl⟩

/-- C9: handling a message aborts exactly when the message is outside the
closed set of five recognized variants — every unsupported variant is
fatal, and every recognized message is handled without aborting. -/
theorem c9_unsupported_fatal (s : MainCanvas) (msg : SharedMessage) :
    update s msg = none ↔ msg = SharedMessage.UnsupportedVariant := by
  cases msg with
  | NotifyRosterUpdated => simp [update]
  | DeleteElement i =>
      by_cases h : i < s.roster.elements.length <;> simp [update, h]
  | ShowTooltip i =>
      cases h : s.roster.elements[i]? <;> simp [update, h]
  | MoveTooltip x y => simp [update]
  | HideTooltip => simp [update]
  | UnsupportedVariant => simp [update]

/-- One update step preserves the tooltip invariant. -/
theorem update_preserves_tooltip_inv (s : MainCanvas) (m : SharedMessage)
    (r : UpdateResult) (hs : tooltip_inv s) (h : update s m = some r) :
    tooltip_inv r.state := by
  cases m with
  | NotifyRosterUpdated =>
      simp only [update, Option.some.injEq] at h
      subst h
      exact hs
  | DeleteElement i =>
      simp only [update] at h
      split at h <;>
      · simp only [Option.some.injEq] at h
        subst h
        intro hv
        simp at hv
  | ShowTooltip i =>
      simp only [update] at h
      cases hg : s.roster.elements[i]? with
      | some elem =>
          rw [hg] at h
          simp only [Option.some.injEq] at h
          subst h
          intro _
          rfl
      | none =>
          rw [hg] at h
          simp only [Option.some.injEq] at h
          subst h
          exact hs
  | MoveTooltip x y =>
      simp only [update, Option.some.injEq] at h
      subst h
      exact hs
  | HideTooltip =>
      simp only [update, Option.some.injEq] at h
      subst h
      intro hv
      simp at hv
  | UnsupportedVariant => simp [update] at h

/-- A whole message sequence preserves the tooltip invariant. -/
theorem run_preserves_tooltip_inv (msgs : List SharedMessage) :
    ∀ s s' : MainCanvas, tooltip_inv s → run s msgs = some s' → tooltip_inv s' := by
  induction msgs with
  | nil =>
      intro s s' hs h
      simp only [run, Option.some.injEq] at h
      subst h
      exact hs
  | cons m rest ih =>
      intro s s' hs h
      simp only [run] at h
      cases hu : update s m with
      | none => rw [hu] at h; exact absurd h (by simp)
      | some r =>
          rw [hu] at h
          exact ih r.state s' (update_preserves_tooltip_inv s m r hs hu) h

/-- C10: in every state reachable from the initial state (tooltip hidden,
content absent, position (0, 0)) by any sequence of recognized messages, a
visible tooltip always has a cached content fragment present, so the
rendered overlay never displays an absent fragment. -/
theorem c10_reachable_visible_implies_content (roster : Roster) (is_dark_mode : Bool)
    (msgs : List SharedMessage) (s' : MainCanvas)
    (h : run (create roster is_dark_mode) msgs = some s')
    (hv : s'.tooltip_visible = true) : s'.tooltip_content.isSome = true :=
  run_preserves_tooltip_inv msgs (create roster is_dark_mode) s'
    (fun hvis => absurd hvis (by simp [create])) h hv

/-- C10 witness: the state reached by ShowTooltip 0 from the initial state
on a one-element roster is visible and indeed carries cached content. -/
theorem c10_witness :
    ({ roster := ⟨[RosterElement.ElemSupport ⟨"B", 40⟩]⟩
       is_dark_mode := false
       tooltip_visible := true
       tooltip_content := some ["Details about: Support: \"B\"", "Double click to delete"]
       tooltip_x := 0, tooltip_y := 0 } : MainCanvas).tooltip_content.isSome = true :=
  c10_reachable_visible_implies_content ⟨[RosterElement.ElemSupport ⟨"B", 40⟩]⟩ false
    [SharedMessage.ShowTooltip 0] _ (by decide) (by decide)

end FsdBuilder
